import Mathlib

/-!
Verification of `gpflow/priors.py`: a family of prior-distribution objects,
each exposing construction, `logp` (log-density, reduced by summation),
`sample` and `__str__`.

Modelling conventions:
* Python floats are modelled as real numbers (`ℝ`) for the analytic layer
  (`logp`, `sample`) and as rationals (`ℚ`) for the exactly-evaluable layers
  (construction arithmetic and string rendering); the parameter records are
  generic in the scalar type so one record per Python class serves both.
* `np.atleast_1d(np.array(v, float))` on a scalar `v` stores the one-element
  array `[v]`; broadcasting then makes every elementwise formula act with the
  scalar value, so scalar parameters are carried directly.
* A Python constructor or method that can raise is an `Except PyError`
  computation; one that cannot raise is a plain function.
* `tf.reduce_sum(f(x))` over an array `x` is `(x.map f).sum`;
  `tf.size(x)` is `x.length`.
-/

namespace GPflowPriors

/-- Python exceptions that the code under verification can raise. -/
inductive PyError where
  | valueError : String → PyError
  | assertionError : String → PyError
  | typeError : String → PyError
  | nameError : String → PyError
deriving Repr, DecidableEq

/-- Names bound at the top level of the module `gpflow/priors.py` by its
imported bindings (`tensorflow as tf`, `numpy as np`, `logdensities` and
`settings` from the package, `Parameterized` from `params`, `IPrior` from
`core.base`) and by its own class statements. A bare name used inside a method body resolves
against this scope; a name absent from it raises `NameError` at call time. -/
def moduleScope : List String :=
  ["tf", "np", "logdensities", "settings", "Parameterized", "IPrior",
   "Prior", "Exponential", "Gaussian", "LogNormal", "Gamma", "InverseGamma",
   "Laplace", "Beta", "Uniform"]

namespace logdensities

/-- Modelled from the spec: the module `gpflow/logdensities.py` is not part of
this fragment; the spec gives the Exponential elementwise log-density as
`log r − r·x` with rate `r`, and the code calls it with `scale = 1/r`. -/
noncomputable def exponential (x scale : ℝ) : ℝ :=
  -Real.log scale - x / scale

/-- Modelled from the spec: the Gaussian elementwise log-density
`−½log(2πσ²) − (x−μ)²/(2σ²)` from `gpflow/logdensities.py`. -/
noncomputable def gaussian (x mu var : ℝ) : ℝ :=
  -(1 / 2) * Real.log (2 * Real.pi * var) - (x - mu) ^ 2 / (2 * var)

/-- Modelled from the spec: the LogNormal elementwise log-density, the
Gaussian log-density of `log x` minus the Jacobian term `log x`. -/
noncomputable def lognormal (x mu var : ℝ) : ℝ :=
  gaussian (Real.log x) mu var - Real.log x

/-- Modelled from the spec: the standard Gamma elementwise log-density with
shape `k` and scale `θ`: `−log Γ(k) − k log θ + (k−1) log x − x/θ`. -/
noncomputable def gamma (x shape scale : ℝ) : ℝ :=
  -Real.log (Real.Gamma shape) - shape * Real.log scale
    + (shape - 1) * Real.log x - x / scale

/-- Modelled from the spec: the standard Laplace elementwise log-density with
location `μ` and scale `b`: `−log(2b) − |x−μ|/b`. -/
noncomputable def laplace (x mu sigma : ℝ) : ℝ :=
  -Real.log (2 * sigma) - |x - mu| / sigma

/-- Modelled from the spec: the standard Beta elementwise log-density with
shape parameters `a` and `b`. -/
noncomputable def beta (x a b : ℝ) : ℝ :=
  (a - 1) * Real.log x + (b - 1) * Real.log (1 - x)
    - (Real.log (Real.Gamma a) + Real.log (Real.Gamma b)
        - Real.log (Real.Gamma (a + b)))

end logdensities

/-- Modelled from the spec: the standard Inverse-Gamma elementwise log-density
with shape `α` and scale `β`: `α log β − log Γ(α) − (α+1) log x − β/x`. This is
the value `InverseGamma.logp` is documented to reduce; the code instead
references the undefined name `densities`. -/
noncomputable def inverseGammaLogdensity (shape scale x : ℝ) : ℝ :=
  shape * Real.log scale - Real.log (Real.Gamma shape)
    - (shape + 1) * Real.log x - scale / x

/-! ## Parameter records, one per Python class -/

/-- State of an `Exponential` prior after construction: `self.rate`. -/
structure ExponentialP (α : Type) where
  rate : α
deriving Repr

/-- State of a `Gaussian` prior after construction: `self.mu`, `self.var`. -/
structure GaussianP (α : Type) where
  mu : α
  var : α
deriving Repr

/-- State of a `LogNormal` prior after construction: `self.mu`, `self.var`. -/
structure LogNormalP (α : Type) where
  mu : α
  var : α
deriving Repr

/-- State of a `Gamma` prior after construction: `self.shape`, `self.scale`. -/
structure GammaP (α : Type) where
  shape : α
  scale : α
deriving Repr

/-- State of an `InverseGamma` prior after construction: `self.shape`,
`self.scale`. -/
structure InverseGammaP (α : Type) where
  shape : α
  scale : α
deriving Repr

/-- State of a `Laplace` prior after construction: `self.mu`, `self.sigma`. -/
structure LaplaceP (α : Type) where
  mu : α
  sigma : α
deriving Repr

/-- State of a `Beta` prior after construction: `self.a`, `self.b`. -/
structure BetaP (α : Type) where
  a : α
  b : α
deriving Repr

/-- State of a `Uniform` prior after construction: `self.lower`, `self.upper`
(stored raw, not wrapped into numpy arrays). -/
structure UniformP (α : Type) where
  lower : α
  upper : α
deriving Repr

/-! ## Constructors -/

variable {α : Type}

/-- `Exponential.__init__(self, rate)`: stores the rate, then raises
`ValueError` when `rate <= 0`; the caller receives an object only when the
constructor returns normally. -/
def Exponential.init [LinearOrder α] [OfNat α 0] (rate : α) :
    Except PyError (ExponentialP α) :=
  if rate ≤ 0 then
    .error (.valueError "The rate parameter has to be positive.")
  else
    .ok ⟨rate⟩

/-- `Gaussian.__init__(self, mu, var)`: stores both parameters; performs no
validation. -/
def Gaussian.init (mu var : α) : Except PyError (GaussianP α) :=
  .ok ⟨mu, var⟩

/-- `LogNormal.__init__(self, mu, var)`: stores both parameters; performs no
validation. -/
def LogNormal.init (mu var : α) : Except PyError (LogNormalP α) :=
  .ok ⟨mu, var⟩

/-- `Gamma.__init__(self, shape=None, scale=None, mu=None, var=None)`:
when both `mu` and `var` are supplied it asserts that `shape` and `scale` are
absent and then derives `shape = mu²/var`, `scale = var/mu`; finally both are
converted with `np.array(·, float)`, which raises `TypeError` on `None`. -/
def Gamma.init [Field α] (shape₀ scale₀ mu var : Option α) :
    Except PyError (GammaP α) := do
  let sp : Option α × Option α ←
    if mu.isSome = true ∧ var.isSome = true then
      if shape₀.isNone ∧ scale₀.isNone then
        let m := mu.getD 0
        let v := var.getD 0
        pure (some (m ^ 2 / v), some (v / m))
      else
        throw (.assertionError "Cannot provide both shape/scale and mean/var")
    else
      pure (shape₀, scale₀)
  match sp with
  | (some s, some c) => pure ⟨s, c⟩
  | _ => throw (.typeError "float argument required, not NoneType")

/-- `InverseGamma.__init__(self, shape=None, scale=None, mu=None, var=None)`:
when both `mu` and `var` are supplied it asserts that `shape` and `scale` are
absent and then derives `shape = 2 + mu²/var`, `scale = mu·(1 + mu²/var)`;
finally both are converted with `np.array(·, float)`, which raises `TypeError`
on `None`. -/
def InverseGamma.init [Field α] (shape₀ scale₀ mu var : Option α) :
    Except PyError (InverseGammaP α) := do
  let sp : Option α × Option α ←
    if mu.isSome = true ∧ var.isSome = true then
      if shape₀.isNone ∧ scale₀.isNone then
        let m := mu.getD 0
        let v := var.getD 0
        pure (some (2 + m ^ 2 / v), some (m * (1 + m ^ 2 / v)))
      else
        throw (.assertionError "Cannot provide both shape/scale and mean/var")
    else
      pure (shape₀, scale₀)
  match sp with
  | (some s, some c) => pure ⟨s, c⟩
  | _ => throw (.typeError "float argument required, not NoneType")

/-- `Laplace.__init__(self, mu, sigma)`: stores both parameters; performs no
validation. -/
def Laplace.init (mu sigma : α) : Except PyError (LaplaceP α) :=
  .ok ⟨mu, sigma⟩

/-- `Beta.__init__(self, a, b)`: stores both parameters; performs no
validation. -/
def Beta.init (a b : α) : Except PyError (BetaP α) :=
  .ok ⟨a, b⟩

/-- `Uniform.__init__(self, lower=0., upper=1.)`: stores both bounds;
performs no validation. -/
def Uniform.init (lower upper : α) : Except PyError (UniformP α) :=
  .ok ⟨lower, upper⟩

/-! ## `logp` methods

Arrays are lists of reals; `tf.reduce_sum` of an elementwise formula over `x`
is the sum of the mapped list. -/

/-- `Exponential.logp(self, x)`: `scale = 1/self.rate`, then
`tf.reduce_sum(logdensities.exponential(x, scale))`. -/
noncomputable def Exponential.logp (p : ExponentialP ℝ) (x : List ℝ) : ℝ :=
  (x.map (fun xi => logdensities.exponential xi (1 / p.rate))).sum

/-- `Gaussian.logp(self, x)`:
`tf.reduce_sum(logdensities.gaussian(x, self.mu, self.var))`. -/
noncomputable def Gaussian.logp (p : GaussianP ℝ) (x : List ℝ) : ℝ :=
  (x.map (fun xi => logdensities.gaussian xi p.mu p.var)).sum

/-- `LogNormal.logp(self, x)`:
`tf.reduce_sum(logdensities.lognormal(x, self.mu, self.var))`. -/
noncomputable def LogNormal.logp (p : LogNormalP ℝ) (x : List ℝ) : ℝ :=
  (x.map (fun xi => logdensities.lognormal xi p.mu p.var)).sum

/-- `Gamma.logp(self, x)`:
`tf.reduce_sum(logdensities.gamma(x, self.shape, self.scale))`. -/
noncomputable def Gamma.logp (p : GammaP ℝ) (x : List ℝ) : ℝ :=
  (x.map (fun xi => logdensities.gamma xi p.shape p.scale)).sum

/-- `InverseGamma.logp(self, x)`: the body is
`tf.reduce_sum(densities.inverse_gamma(self.shape, self.scale, x))`. The bare
name `densities` is resolved against the module scope at call time; it is not
bound there (the module imports `logdensities`), so the call raises
`NameError` before any density is evaluated. Had the name resolved, the
result would be the reduced Inverse-Gamma log-density. -/
noncomputable def InverseGamma.logp (p : InverseGammaP ℝ) (x : List ℝ) :
    Except PyError ℝ :=
  if "densities" ∈ moduleScope then
    .ok ((x.map (fun xi => inverseGammaLogdensity p.shape p.scale xi)).sum)
  else
    .error (.nameError "name densities is not defined")

/-- `Laplace.logp(self, x)`:
`tf.reduce_sum(logdensities.laplace(x, self.mu, self.sigma))`. -/
noncomputable def Laplace.logp (p : LaplaceP ℝ) (x : List ℝ) : ℝ :=
  (x.map (fun xi => logdensities.laplace xi p.mu p.sigma)).sum

/-- `Beta.logp(self, x)`:
`tf.reduce_sum(logdensities.beta(x, self.a, self.b))`. -/
noncomputable def Beta.logp (p : BetaP ℝ) (x : List ℝ) : ℝ :=
  (x.map (fun xi => logdensities.beta xi p.a p.b)).sum

/-- `Uniform.log_height` (a property): `-np.log(self.upper - self.lower)`. -/
noncomputable def Uniform.log_height (p : UniformP ℝ) : ℝ :=
  -Real.log (p.upper - p.lower)

/-- `Uniform.logp(self, x)`:
`self.log_height * tf.cast(tf.size(x), float)` — the constant log-height
times the number of elements of `x`; the element values are never read. -/
noncomputable def Uniform.logp (p : UniformP ℝ) (x : List ℝ) : ℝ :=
  Uniform.log_height p * (x.length : ℝ)

/-! ## `sample` methods

The requested shape is carried by its element count `n`. A numpy sampler
filling `n` i.i.d. draws from a base family is modelled as reading a stream
`u : ℕ → ℝ` of that family's draws (the distributional content of the library
generator is outside the embedding); the code under verification contributes
the element count and any deterministic transformation applied on top. -/

/-- Modelled from the spec: a numpy random routine returning an array of the
requested size of i.i.d. draws, as the first `n` values of a draw stream. -/
def npRandomDraws (n : ℕ) (u : ℕ → ℝ) : List ℝ :=
  (List.range n).map u

/-- `Exponential.sample(self, shape)`:
`np.random.exponential(scale=1/self.rate, size=shape)` — `n` library draws
from Exponential(scale = 1/rate). -/
def Exponential.sample (_p : ExponentialP ℝ) (n : ℕ) (u : ℕ → ℝ) : List ℝ :=
  npRandomDraws n u

/-- `Gaussian.sample(self, shape)`:
`self.mu + np.sqrt(self.var) * np.random.randn(*shape)` — standard-normal
draws scaled by `sqrt(var)` and shifted by `mu`, elementwise. -/
noncomputable def Gaussian.sample (p : GaussianP ℝ) (n : ℕ) (u : ℕ → ℝ) :
    List ℝ :=
  (npRandomDraws n u).map (fun z => p.mu + Real.sqrt p.var * z)

/-- `LogNormal.sample(self, shape)`:
`np.exp(self.mu + np.sqrt(self.var) * np.random.randn(*shape))`. -/
noncomputable def LogNormal.sample (p : LogNormalP ℝ) (n : ℕ) (u : ℕ → ℝ) :
    List ℝ :=
  (npRandomDraws n u).map (fun z => Real.exp (p.mu + Real.sqrt p.var * z))

/-- `Gamma.sample(self, shape)`:
`np.random.gamma(self.shape, self.scale, size=shape)` — `n` library draws
from Gamma(shape, scale). -/
def Gamma.sample (_p : GammaP ℝ) (n : ℕ) (u : ℕ → ℝ) : List ℝ :=
  npRandomDraws n u

/-- `InverseGamma.sample(self, shape)`:
`1.0 / np.random.gamma(self.shape, 1.0/self.scale, size=shape)` — the
elementwise reciprocal of `n` library Gamma draws. -/
noncomputable def InverseGamma.sample (_p : InverseGammaP ℝ) (n : ℕ) (u : ℕ → ℝ) : List ℝ :=
  (npRandomDraws n u).map (fun g => 1 / g)

/-- `Laplace.sample(self, shape)`:
`np.random.laplace(self.mu, self.sigma, size=shape)` — `n` library draws. -/
def Laplace.sample (_p : LaplaceP ℝ) (n : ℕ) (u : ℕ → ℝ) : List ℝ :=
  npRandomDraws n u

/-- `Beta.sample(self, shape)`:
`np.random.beta(self.a, self.b, size=shape)` — `n` library draws. -/
def Beta.sample (_p : BetaP ℝ) (n : ℕ) (u : ℕ → ℝ) : List ℝ :=
  npRandomDraws n u

/-- `Uniform.sample(self, shape)`:
`self.lower + (self.upper - self.lower) * np.random.rand(*shape)` —
Uniform(0,1) draws rescaled to the interval, elementwise. -/
noncomputable def Uniform.sample (p : UniformP ℝ) (n : ℕ) (u : ℕ → ℝ) : List ℝ :=
  (npRandomDraws n u).map (fun t => p.lower + (p.upper - p.lower) * t)

/-! ## `__str__` methods

String rendering is evaluated exactly, so this layer works over `ℚ`-valued
parameter records. -/

/-- Modelled from numpy: `str` of a one-element float64 array, `"[v]"` with
the value printed in float repr; for an integer-valued float the repr is the
integer digits followed by a bare point (`str(np.array([0.]))` is `"[0.]"`).
Non-integer rationals, which the claims never evaluate, are rendered as exact
fractions. -/
def npArr1dStr (q : ℚ) : String :=
  if q.den = 1 then "[" ++ toString q.num ++ ".]"
  else "[" ++ toString q.num ++ "/" ++ toString q.den ++ "]"

/-- Modelled from Python: `str` of a float; for an integer-valued float the
repr is the integer digits followed by `".0"` (`str(0.0)` is `"0.0"`).
Non-integer rationals, which the claims never evaluate, are rendered as exact
fractions. -/
def pyFloatStr (q : ℚ) : String :=
  if q.den = 1 then toString q.num ++ ".0"
  else toString q.num ++ "/" ++ toString q.den

/-- `Exponential.__str__(self)`: `"Exp({})".format(self.rate)` where
`self.rate` is a one-element array. -/
def Exponential.str (p : ExponentialP ℚ) : String :=
  "Exp(" ++ npArr1dStr p.rate ++ ")"

/-- `Gaussian.__str__(self)`: `"N({},{})".format(self.mu, self.var)` where
both attributes are one-element arrays. -/
def Gaussian.str (p : GaussianP ℚ) : String :=
  "N(" ++ npArr1dStr p.mu ++ "," ++ npArr1dStr p.var ++ ")"

/-- `LogNormal.__str__(self)`: `"logN({},{})".format(self.mu, self.var)`. -/
def LogNormal.str (p : LogNormalP ℚ) : String :=
  "logN(" ++ npArr1dStr p.mu ++ "," ++ npArr1dStr p.var ++ ")"

/-- `Gamma.__str__(self)`: `"Ga({},{})".format(self.shape, self.scale)`. -/
def Gamma.str (p : GammaP ℚ) : String :=
  "Ga(" ++ npArr1dStr p.shape ++ "," ++ npArr1dStr p.scale ++ ")"

/-- `InverseGamma.__str__(self)`:
`"InvGa(" + str(self.shape) + "," + str(self.scale) + ")"`. -/
def InverseGamma.str (p : InverseGammaP ℚ) : String :=
  "InvGa(" ++ npArr1dStr p.shape ++ "," ++ npArr1dStr p.scale ++ ")"

/-- `Laplace.__str__(self)`: `"Lap.({},{})".format(self.mu, self.sigma)`. -/
def Laplace.str (p : LaplaceP ℚ) : String :=
  "Lap.(" ++ npArr1dStr p.mu ++ "," ++ npArr1dStr p.sigma ++ ")"

/-- `Beta.__str__(self)`: `"Beta({},{})".format(self.a, self.b)`. -/
def Beta.str (p : BetaP ℚ) : String :=
  "Beta(" ++ npArr1dStr p.a ++ "," ++ npArr1dStr p.b ++ ")"

/-- `Uniform.__str__(self)`: `"U({},{})".format(self.lower, self.upper)`;
these two attributes are plain Python floats, not numpy arrays. -/
def Uniform.str (p : UniformP ℚ) : String :=
  "U(" ++ pyFloatStr p.lower ++ "," ++ pyFloatStr p.upper ++ ")"

/-! ## The prior variants as one closed type -/

/-- A constructed prior of any of the eight variants, with real-valued
parameters. -/
inductive PriorV where
  | exponentialV : ExponentialP ℝ → PriorV
  | gaussianV : GaussianP ℝ → PriorV
  | logNormalV : LogNormalP ℝ → PriorV
  | gammaV : GammaP ℝ → PriorV
  | inverseGammaV : InverseGammaP ℝ → PriorV
  | laplaceV : LaplaceP ℝ → PriorV
  | betaV : BetaP ℝ → PriorV
  | uniformV : UniformP ℝ → PriorV

/-- The `logp` call of any prior with the object state passed explicitly:
each `logp` body only reads attributes of `self` (no attribute assignment
occurs in any of them), so the translated call returns the method's outcome
together with the object state as it stands after the call.
`InverseGamma.logp` raises `NameError`; every other body returns normally. -/
noncomputable def PriorV.logpS : PriorV → List ℝ → Except PyError ℝ × PriorV
  | .exponentialV p, x => (.ok (Exponential.logp p x), .exponentialV p)
  | .gaussianV p, x => (.ok (Gaussian.logp p x), .gaussianV p)
  | .logNormalV p, x => (.ok (LogNormal.logp p x), .logNormalV p)
  | .gammaV p, x => (.ok (Gamma.logp p x), .gammaV p)
  | .inverseGammaV p, x => (InverseGamma.logp p x, .inverseGammaV p)
  | .laplaceV p, x => (.ok (Laplace.logp p x), .laplaceV p)
  | .betaV p, x => (.ok (Beta.logp p x), .betaV p)
  | .uniformV p, x => (.ok (Uniform.logp p x), .uniformV p)

/-- The string `t` occurs contiguously inside `s`. -/
def containsStr (s t : String) : Prop :=
  ∃ a b : String, s = a ++ (t ++ b)

/-! ## Helper lemmas -/

/-- A string with a nonempty left part is nonempty. -/
theorem str_append_ne_empty (s t : String) (h : 0 < s.length) : s ++ t ≠ "" := by
  intro he
  have h2 := congrArg String.length he
  rw [String.length_append] at h2
  have h0 : ("" : String).length = 0 := rfl
  omega

/-- Exhibiting the two sides of an occurrence proves containment. -/
theorem containsStr_of_parts (a t b : String) : containsStr (a ++ (t ++ b)) t :=
  ⟨a, b, rfl⟩

/-- A rendered `"pre…x…post"` string with a nonempty literal head is
nonempty and contains its interpolated parameter. -/
theorem oneParamStrProps (pre x post : String) (hpre : 0 < pre.length) :
    (pre ++ x ++ post) ≠ "" ∧ containsStr (pre ++ x ++ post) x := by
  refine ⟨?_, ⟨pre, post, by simp [String.append_assoc]⟩⟩
  have h : pre ++ x ++ post = pre ++ (x ++ post) := by
    simp [String.append_assoc]
  rw [h]
  exact str_append_ne_empty _ _ hpre

/-- A rendered `"pre…x,y…post"` string with a nonempty literal head is
nonempty and contains both interpolated parameters. -/
theorem twoParamStrProps (pre x y post : String) (hpre : 0 < pre.length) :
    (pre ++ x ++ "," ++ y ++ post) ≠ "" ∧
    containsStr (pre ++ x ++ "," ++ y ++ post) x ∧
    containsStr (pre ++ x ++ "," ++ y ++ post) y := by
  refine ⟨?_, ⟨pre, "," ++ y ++ post, by simp [String.append_assoc]⟩,
    ⟨pre ++ x ++ ",", post, by simp [String.append_assoc]⟩⟩
  have h : pre ++ x ++ "," ++ y ++ post =
      pre ++ (x ++ "," ++ y ++ post) := by
    simp [String.append_assoc]
  rw [h]
  exact str_append_ne_empty _ _ hpre

/-! ## Claims -/

/-- C1: the spec claims `InverseGamma.logp(x)` returns the sum of the
standard Inverse-Gamma log-density over `x` without raising; on the code the
body references the bare name `densities`, which the module never binds
(only `logdensities` is bound), so every call — here `InverseGamma(shape=2,
scale=1).logp([1.0])` — raises `NameError` instead of returning a value. -/
theorem c1_inverseGamma_logp_raises_nameError :
    "densities" ∉ moduleScope ∧
    InverseGamma.logp ⟨2, 1⟩ [1] =
      .error (.nameError "name densities is not defined") :=
  ⟨by decide, rfl⟩

/-- C2 counterexample: the claim says constructing a prior with parameters
violating the distribution's domain (Gaussian with var ≤ 0, Beta with
negative shapes, Uniform with upper ≤ lower) fails at construction time; on
the code all three constructions return an object normally. -/
theorem c2_no_validation_counterexample :
    Gaussian.init (α := ℝ) 0 (-1) = .ok ⟨0, -1⟩ ∧
    Beta.init (α := ℝ) (-1) (-1) = .ok ⟨-1, -1⟩ ∧
    Uniform.init (α := ℝ) 2 1 = .ok ⟨2, 1⟩ :=
  ⟨rfl, rfl, rfl⟩

/-- C2 amended: only `Exponential` validates its parameter domain at
construction (`rate ≤ 0` raises `ValueError`); `Gaussian`, `LogNormal`,
`Laplace`, `Beta` and `Uniform` store whatever parameters they are given
without any domain check, so domain violations there are deferred to
evaluation. -/
theorem c2_validation_only_in_exponential (rate mu var sig a b lo hi : ℝ)
    (hrate : rate ≤ 0) :
    Exponential.init rate =
      .error (.valueError "The rate parameter has to be positive.") ∧
    Gaussian.init mu var = .ok ⟨mu, var⟩ ∧
    LogNormal.init mu var = .ok ⟨mu, var⟩ ∧
    Laplace.init mu sig = .ok ⟨mu, sig⟩ ∧
    Beta.init a b = .ok ⟨a, b⟩ ∧
    Uniform.init lo hi = .ok ⟨lo, hi⟩ := by
  refine ⟨?_, rfl, rfl, rfl, rfl, rfl⟩
  simp [Exponential.init, hrate]

/-- C2 witness: the amended statement instantiated at rate −1 and at
parameters violating the other variants' domains. -/
theorem c2_validation_only_in_exponential_witness :
    ((-1 : ℝ) ≤ 0) ∧
    (Exponential.init (α := ℝ) (-1) =
      .error (.valueError "The rate parameter has to be positive.") ∧
    Gaussian.init (α := ℝ) 0 (-1) = .ok ⟨0, -1⟩ ∧
    LogNormal.init (α := ℝ) 0 (-1) = .ok ⟨0, -1⟩ ∧
    Laplace.init (α := ℝ) 0 (-2) = .ok ⟨0, -2⟩ ∧
    Beta.init (α := ℝ) (-1) (-1) = .ok ⟨-1, -1⟩ ∧
    Uniform.init (α := ℝ) 2 1 = .ok ⟨2, 1⟩) :=
  ⟨by norm_num,
   c2_validation_only_in_exponential (-1) 0 (-1) (-2) (-1) (-1) 2 1 (by norm_num)⟩

/-- C3: supplying both the natural parameterization (shape and scale) and the
mean/variance parameterization to `Gamma` or `InverseGamma` fails at
construction with the assertion
"Cannot provide both shape/scale and mean/var", and no object is produced. -/
theorem c3_both_parameterizations_assert (s c m v : ℝ) :
    Gamma.init (some s) (some c) (some m) (some v) =
      .error (.assertionError "Cannot provide both shape/scale and mean/var") ∧
    InverseGamma.init (some s) (some c) (some m) (some v) =
      .error (.assertionError "Cannot provide both shape/scale and mean/var") :=
  ⟨rfl, rfl⟩

/-- C4: constructing `Gamma` from mean and variance stores
`shape = μ²/var`, `scale = var/μ` (so mean 2, variance 1 gives shape 4,
scale 0.5), and constructing `InverseGamma` from mean and variance stores
`shape = 2 + μ²/var`, `scale = μ·(1 + μ²/var)`. -/
theorem c4_mean_var_conversion (m v : ℝ) (hm : m ≠ 0) (hv : v ≠ 0) :
    Gamma.init none none (some m) (some v) = .ok ⟨m ^ 2 / v, v / m⟩ ∧
    InverseGamma.init none none (some m) (some v) =
      .ok ⟨2 + m ^ 2 / v, m * (1 + m ^ 2 / v)⟩ ∧
    Gamma.init (α := ℝ) none none (some 2) (some 1) = .ok ⟨4, 1 / 2⟩ := by
  refine ⟨rfl, rfl, ?_⟩
  have h : Gamma.init (α := ℝ) none none (some 2) (some 1) =
      .ok ⟨(2 : ℝ) ^ 2 / 1, (1 : ℝ) / 2⟩ := rfl
  rw [h]
  simp only [Except.ok.injEq, GammaP.mk.injEq]
  norm_num

/-- C4 witness: the conversion instantiated at mean 2, variance 1. -/
theorem c4_mean_var_conversion_witness :
    ((2 : ℝ) ≠ 0 ∧ (1 : ℝ) ≠ 0) ∧
    Gamma.init (α := ℝ) none none (some 2) (some 1) = .ok ⟨4, 1 / 2⟩ :=
  ⟨⟨by norm_num, by norm_num⟩,
   (c4_mean_var_conversion 2 1 (by norm_num) (by norm_num)).2.2⟩

/-- C6: constructing `Exponential` with `rate ≤ 0` (for example 0 or −1)
raises at construction time and yields no object, while any `rate > 0` is
accepted. -/
theorem c6_exponential_rate_validation (r r' : ℝ) (hr : r ≤ 0) (hr' : 0 < r') :
    Exponential.init r =
      .error (.valueError "The rate parameter has to be positive.") ∧
    Exponential.init (α := ℝ) 0 =
      .error (.valueError "The rate parameter has to be positive.") ∧
    Exponential.init (α := ℝ) (-1) =
      .error (.valueError "The rate parameter has to be positive.") ∧
    Exponential.init r' = .ok ⟨r'⟩ := by
  refine ⟨?_, ?_, ?_, ?_⟩ <;>
    simp [Exponential.init, hr, not_le.mpr hr']

/-- C6 witness: the validation instantiated at rates −1 and 1. -/
theorem c6_exponential_rate_validation_witness :
    ((-1 : ℝ) ≤ 0 ∧ (0 : ℝ) < 1) ∧
    (Exponential.init (α := ℝ) (-1) =
      .error (.valueError "The rate parameter has to be positive.") ∧
    Exponential.init (α := ℝ) 0 =
      .error (.valueError "The rate parameter has to be positive.") ∧
    Exponential.init (α := ℝ) (-1) =
      .error (.valueError "The rate parameter has to be positive.") ∧
    Exponential.init (α := ℝ) 1 = .ok ⟨1⟩) :=
  ⟨⟨by norm_num, by norm_num⟩,
   c6_exponential_rate_validation (-1) 1 (by norm_num) (by norm_num)⟩

/-- C7: the mutual-exclusivity assertion of `Gamma` and `InverseGamma` fires
only when both `mu` and `var` are supplied; with shape and scale present and
only one of the two mean/variance arguments given, no error is raised, the
partial input is ignored and the object carries the supplied shape and
scale. -/
theorem c7_partial_mean_var_ignored (s c m v : ℝ) :
    Gamma.init (some s) (some c) (some m) none = .ok ⟨s, c⟩ ∧
    Gamma.init (some s) (some c) none (some v) = .ok ⟨s, c⟩ ∧
    InverseGamma.init (some s) (some c) (some m) none = .ok ⟨s, c⟩ ∧
    InverseGamma.init (some s) (some c) none (some v) = .ok ⟨s, c⟩ :=
  ⟨rfl, rfl, rfl, rfl⟩

/-- C5: for a `Uniform` prior with `lower < upper`, `logp(x)` equals
`−log(upper−lower)` times the element count of `x`, independent of the
element values (equal-sized arrays give equal results, so out-of-support
values are silently ignored), and with lower 0, upper 2 and a three-element
array the result is `3·(−log 2)`. -/
theorem c5_uniform_logp_depends_only_on_size (lo hi : ℝ) (hlt : lo < hi)
    (x y : List ℝ) (hxy : x.length = y.length) (a b c : ℝ) :
    Uniform.logp ⟨lo, hi⟩ x = -Real.log (hi - lo) * (x.length : ℝ) ∧
    Uniform.logp ⟨lo, hi⟩ x = Uniform.logp ⟨lo, hi⟩ y ∧
    Uniform.logp ⟨0, 2⟩ [a, b, c] = 3 * (-Real.log 2) := by
  refine ⟨rfl, ?_, ?_⟩
  · unfold Uniform.logp
    rw [hxy]
  · unfold Uniform.logp Uniform.log_height
    norm_num
    ring

/-- C5 witness: the statement instantiated with bounds 0 < 2 and two
different equal-sized arrays. -/
theorem c5_uniform_logp_depends_only_on_size_witness :
    ((0 : ℝ) < 2 ∧ ([1, 2, 3] : List ℝ).length = ([9, 9, 9] : List ℝ).length) ∧
    (Uniform.logp ⟨0, 2⟩ [1, 2, 3] = -Real.log (2 - 0) * (([1, 2, 3] : List ℝ).length : ℝ) ∧
    Uniform.logp ⟨0, 2⟩ [1, 2, 3] = Uniform.logp ⟨0, 2⟩ [9, 9, 9] ∧
    Uniform.logp ⟨0, 2⟩ [(4 : ℝ), 5, 6] = 3 * (-Real.log 2)) :=
  ⟨⟨by norm_num, rfl⟩,
   c5_uniform_logp_depends_only_on_size 0 2 (by norm_num) [1, 2, 3] [9, 9, 9]
     rfl 4 5 6⟩

/-- C8: every variant's `sample` fills exactly the requested number of
elements, and the transformations the code applies on top of the library
draws are, for `Gaussian`, `μ + sqrt(var)·z` over standard-normal draws `z`
and, for `Uniform`, `lower + (upper−lower)·t` over Uniform(0,1) draws
`t`. -/
theorem c8_sample_shape_and_formulas (pe : ExponentialP ℝ) (pg : GaussianP ℝ)
    (pl : LogNormalP ℝ) (pga : GammaP ℝ) (pig : InverseGammaP ℝ)
    (pla : LaplaceP ℝ) (pb : BetaP ℝ) (pu : UniformP ℝ) (n : ℕ) (u : ℕ → ℝ) :
    (Exponential.sample pe n u).length = n ∧
    (Gaussian.sample pg n u).length = n ∧
    (LogNormal.sample pl n u).length = n ∧
    (Gamma.sample pga n u).length = n ∧
    (InverseGamma.sample pig n u).length = n ∧
    (Laplace.sample pla n u).length = n ∧
    (Beta.sample pb n u).length = n ∧
    (Uniform.sample pu n u).length = n ∧
    Gaussian.sample pg n u =
      (List.range n).map (fun i => pg.mu + Real.sqrt pg.var * u i) ∧
    Uniform.sample pu n u =
      (List.range n).map (fun i => pu.lower + (pu.upper - pu.lower) * u i) := by
  refine ⟨?_, ?_, ?_, ?_, ?_, ?_, ?_, ?_, ?_, ?_⟩ <;>
    simp [Exponential.sample, Gaussian.sample, LogNormal.sample, Gamma.sample,
      InverseGamma.sample, Laplace.sample, Beta.sample, Uniform.sample,
      npRandomDraws, List.map_map, Function.comp]

/-- C9: `logp` is deterministic and side-effect-free across all eight
variants: evaluations at equal parameters and equal inputs give equal
outcomes, and a call leaves the prior's stored parameters exactly as they
were. -/
theorem c9_logp_deterministic_and_pure (pr pr' : PriorV) (x x' : List ℝ)
    (hp : pr = pr') (hx : x = x') :
    pr.logpS x = pr'.logpS x' ∧ (pr.logpS x).2 = pr := by
  subst hp
  subst hx
  refine ⟨rfl, ?_⟩
  cases pr <;> rfl

/-- C9 witness: the statement instantiated at a standard-normal prior and a
singleton input. -/
theorem c9_logp_deterministic_and_pure_witness :
    (PriorV.gaussianV ⟨0, 1⟩).logpS [0] = (PriorV.gaussianV ⟨0, 1⟩).logpS [0] ∧
    ((PriorV.gaussianV ⟨0, 1⟩).logpS [0]).2 = PriorV.gaussianV ⟨0, 1⟩ :=
  c9_logp_deterministic_and_pure (PriorV.gaussianV ⟨0, 1⟩)
    (PriorV.gaussianV ⟨0, 1⟩) [0] [0] rfl rfl

/-- C10: every variant's `__str__` is a non-empty string in which each stored
parameter's rendered value occurs, and a Gaussian built with mu 0 and var 1
prints exactly "N([0.],[1.])". -/
theorem c10_str_nonempty_and_contains_params (pe : ExponentialP ℚ)
    (pg : GaussianP ℚ) (pl : LogNormalP ℚ) (pga : GammaP ℚ)
    (pig : InverseGammaP ℚ) (pla : LaplaceP ℚ) (pb : BetaP ℚ)
    (pu : UniformP ℚ) :
    (Exponential.str pe ≠ "" ∧
      containsStr (Exponential.str pe) (npArr1dStr pe.rate)) ∧
    (Gaussian.str pg ≠ "" ∧
      containsStr (Gaussian.str pg) (npArr1dStr pg.mu) ∧
      containsStr (Gaussian.str pg) (npArr1dStr pg.var)) ∧
    (LogNormal.str pl ≠ "" ∧
      containsStr (LogNormal.str pl) (npArr1dStr pl.mu) ∧
      containsStr (LogNormal.str pl) (npArr1dStr pl.var)) ∧
    (Gamma.str pga ≠ "" ∧
      containsStr (Gamma.str pga) (npArr1dStr pga.shape) ∧
      containsStr (Gamma.str pga) (npArr1dStr pga.scale)) ∧
    (InverseGamma.str pig ≠ "" ∧
      containsStr (InverseGamma.str pig) (npArr1dStr pig.shape) ∧
      containsStr (InverseGamma.str pig) (npArr1dStr pig.scale)) ∧
    (Laplace.str pla ≠ "" ∧
      containsStr (Laplace.str pla) (npArr1dStr pla.mu) ∧
      containsStr (Laplace.str pla) (npArr1dStr pla.sigma)) ∧
    (Beta.str pb ≠ "" ∧
      containsStr (Beta.str pb) (npArr1dStr pb.a) ∧
      containsStr (Beta.str pb) (npArr1dStr pb.b)) ∧
    (Uniform.str pu ≠ "" ∧
      containsStr (Uniform.str pu) (pyFloatStr pu.lower) ∧
      containsStr (Uniform.str pu) (pyFloatStr pu.upper)) ∧
    Gaussian.str ⟨0, 1⟩ = "N([0.],[1.])" :=
  ⟨oneParamStrProps "Exp(" (npArr1dStr pe.rate) ")" (by decide),
   twoParamStrProps "N(" (npArr1dStr pg.mu) (npArr1dStr pg.var) ")" (by decide),
   twoParamStrProps "logN(" (npArr1dStr pl.mu) (npArr1dStr pl.var) ")"
     (by decide),
   twoParamStrProps "Ga(" (npArr1dStr pga.shape) (npArr1dStr pga.scale) ")"
     (by decide),
   twoParamStrProps "InvGa(" (npArr1dStr pig.shape) (npArr1dStr pig.scale) ")"
     (by decide),
   twoParamStrProps "Lap.(" (npArr1dStr pla.mu) (npArr1dStr pla.sigma) ")"
     (by decide),
   twoParamStrProps "Beta(" (npArr1dStr pb.a) (npArr1dStr pb.b) ")"
     (by decide),
   twoParamStrProps "U(" (pyFloatStr pu.lower) (pyFloatStr pu.upper) ")"
     (by decide),
   by rfl⟩

end GPflowPriors
